import Mathlib

/-!
Verification of the bee storage adapter (`bee-storage-rocksdb/src/storage.rs`):
a shallow embedding of the lifecycle operations (`start`, `shutdown`, `size`,
`get_health`, `set_health`) over the persisted system partition, the statically
declared column-family table of `Storage::new`, and the typed fetch/insert
capability contract, together with theorems about the startup version/health
protocol, the shutdown write sequence, size reporting and the partition table.

The engine itself (RocksDB) is abstracted: the system partition is modelled as
its two singleton record slots, engine I/O errors are abstracted away in the
pure transition functions, and each operation additionally returns the list of
system-partition write / flush events it performs, so that "performs no
mutation" and "writes Healthy" are directly statable.
-/

namespace Bee

/-- Modelled from the spec: the `StorageHealth` enum (its defining file,
`bee-storage/src/health.rs`, is not under `src/`). The spec gives exactly two
persisted values: `Healthy` (clean, safely closed or never opened) and `Idle`
(open / unknown state, no clean close recorded). -/
inductive StorageHealth where
  | healthy
  | idle
deriving DecidableEq

/-- Modelled from the spec: the tagged `System` record type (its defining file,
`system.rs`, is not under `src/`): a Version record carrying an unsigned
integer, or a Health record carrying a `StorageHealth` value, stored in the
reserved system partition under one of two fixed singleton keys. -/
inductive System where
  | version (v : Nat)
  | health (h : StorageHealth)
deriving DecidableEq

/-- Modelled from the spec: the error taxonomy of §7 (`error.rs` is not under
`src/`): version mismatch carries both the stored and the current version,
unhealthy storage carries the stored health value; a distinct
corrupt-system-record kind is listed by the spec for an unexpected tag under a
system key; engine failures are collapsed into one abstract kind. -/
inductive Error where
  | versionMismatch (stored current : Nat)
  | unhealthyStorage (h : StorageHealth)
  | corruptSystemRecord
  | engineFailure
deriving DecidableEq

/-- Modelled from the spec: the adapter's current schema version constant
(`STORAGE_VERSION` in `system.rs`, not under `src/`). Only (in)equality with a
stored version matters to the claims, so the concrete value is immaterial. -/
def STORAGE_VERSION : Nat := 1

/-- The persisted state of the reserved system column family: the record stored
under the Version key and the record stored under the Health key. Either slot
may hold a record of the wrong tag, which is how corruption is modelled. -/
structure SystemPartition where
  versionRecord : Option System
  healthRecord : Option System
deriving DecidableEq

/-- The two fixed singleton keys of the system partition. -/
inductive SysKey where
  | versionKey
  | healthKey
deriving DecidableEq

/-- Observable effects of a lifecycle operation on the engine: a write of a
system record under one of the two system keys, or a durable flush. -/
inductive Event where
  | writeRecord (key : SysKey) (value : System)
  | flushAll
deriving DecidableEq

/-- Result of an operation as seen by its caller: a returned value, an error
returned to the caller, or a process panic (Rust `panic!`), which returns
nothing to the caller. -/
inductive Res (α : Type) where
  | ok (value : α)
  | err (e : Error)
  | panic
deriving DecidableEq

/-- `Storage::get_health` (storage.rs lines 231-237): fetch the record under
the Health key; a Health-tagged record yields its value, an absent record
yields `none`, and any other tag panics ("Another system value was inserted on
the health key."). -/
def get_health (s : SystemPartition) : Res (Option StorageHealth) :=
  match s.healthRecord with
  | some (System.health h) => .ok (some h)
  | none => .ok none
  | some (System.version _) => .panic

/-- `Storage::set_health` (storage.rs lines 239-241): insert a Health-tagged
record under the Health key. Returns the new state and the write performed. -/
def set_health (s : SystemPartition) (h : StorageHealth) :
    Res Unit × SystemPartition × List Event :=
  (.ok (), { s with healthRecord := some (.health h) },
    [.writeRecord .healthKey (.health h)])

/-- The health-check phase of `Storage::start` (storage.rs lines 201-207),
entered after the version check: `if let Some(health) = get_health()?`, fail
with `UnhealthyStorage(health)` unless the stored health is `Healthy`; then
`set_health(Idle)`. `tr` is the trace of writes already performed by the
version phase. -/
def startHealthPhase (s : SystemPartition) (tr : List Event) :
    Res Unit × SystemPartition × List Event :=
  match get_health s with
  | .ok (some h) =>
      if h ≠ StorageHealth.healthy then (.err (.unhealthyStorage h), s, tr)
      else
        (.ok (), { s with healthRecord := some (.health .idle) },
          tr ++ [.writeRecord .healthKey (.health .idle)])
  | .ok none =>
      (.ok (), { s with healthRecord := some (.health .idle) },
        tr ++ [.writeRecord .healthKey (.health .idle)])
  | .err e => (.err e, s, tr)
  | .panic => (.panic, s, tr)

/-- `Storage::start` (storage.rs lines 183-210) over an already-opened system
partition: fetch the Version record — a Version-tagged record unequal to
`STORAGE_VERSION` fails with `VersionMismatch(stored, current)`, an absent
record is initialized to the current version, any other tag panics ("Another
system value was inserted on the version key.") — then run the health phase.
`.ok ()` means the adapter instance is returned to the caller. -/
def start (s : SystemPartition) : Res Unit × SystemPartition × List Event :=
  match s.versionRecord with
  | some (System.version v) =>
      if v ≠ STORAGE_VERSION then (.err (.versionMismatch v STORAGE_VERSION), s, [])
      else startHealthPhase s []
  | none =>
      startHealthPhase { s with versionRecord := some (.version STORAGE_VERSION) }
        [.writeRecord .versionKey (.version STORAGE_VERSION)]
  | some (System.health _) => (.panic, s, [])

/-- `Storage::shutdown` (storage.rs lines 214-218): `set_health(Healthy)` then
`flush`, consuming the adapter. -/
def shutdown (s : SystemPartition) : Res Unit × SystemPartition × List Event :=
  (.ok (), { s with healthRecord := some (.health .healthy) },
    [.writeRecord .healthKey (.health .healthy), .flushAll])

/-- 64-bit `usize` modulus for the release-mode wrapping addition in
`Storage::size`. -/
def USIZE_MOD : Nat := 2 ^ 64

/-- `Storage::size` (storage.rs lines 220-229), parameterized by the outcome of
`self.inner.live_files()` (the engine's list of live data-file sizes, or its
failure): on success, `size += file.size` over every live file and return
`Ok(Some(size))`; a failure of `live_files` propagates through `?`. -/
def size (live_files : Res (List Nat)) : Res (Option Nat) :=
  match live_files with
  | .ok files => .ok (some (files.foldl (fun a b => (a + b) % USIZE_MOD) 0))
  | .err e => .err e
  | .panic => .panic

/-- The adapter operations whose writes to the Health record claim C6 is
about. `size` performs no system-partition write and is omitted. -/
inductive Op where
  | opStart
  | opShutdown
  | opSetHealth (h : StorageHealth)
  | opGetHealth
deriving DecidableEq

/-- State transition and event trace of one adapter operation. -/
def runOp (op : Op) (s : SystemPartition) : SystemPartition × List Event :=
  match op with
  | .opStart => (start s).2
  | .opShutdown => (shutdown s).2
  | .opSetHealth h => (set_health s h).2
  | .opGetHealth => (s, [])

/-- The operation writes the value `Healthy` to the Health record. -/
def writesHealthy (op : Op) (s : SystemPartition) : Prop :=
  Event.writeRecord .healthKey (.health .healthy) ∈ (runOp op s).2

instance (op : Op) (s : SystemPartition) : Decidable (writesHealthy op s) :=
  inferInstanceAs (Decidable (_ ∈ _))

/-- Column-family name constants of storage.rs (lines 26-43). -/
def CF_SYSTEM : String := "system"

def CF_MESSAGE_ID_TO_MESSAGE : String := "message_id_to_message"

def CF_MESSAGE_ID_TO_METADATA : String := "message_id_to_metadata"

def CF_MESSAGE_ID_TO_MESSAGE_ID : String := "message_id_to_message_id"

def CF_INDEX_TO_MESSAGE_ID : String := "index_to_message_id"

def CF_OUTPUT_ID_TO_CREATED_OUTPUT : String := "output_id_to_created_output"

def CF_OUTPUT_ID_TO_CONSUMED_OUTPUT : String := "output_id_to_consumed_output"

def CF_OUTPUT_ID_UNSPENT : String := "output_id_unspent"

def CF_ED25519_ADDRESS_TO_OUTPUT_ID : String := "ed25519_address_to_output_id"

def CF_LEDGER_INDEX : String := "ledger_index"

def CF_MILESTONE_INDEX_TO_MILESTONE : String := "milestone_index_to_milestone"

def CF_SNAPSHOT_INFO : String := "snapshot_info"

def CF_SOLID_ENTRY_POINT_TO_MILESTONE_INDEX : String := "solid_entry_point_to_milestone_index"

def CF_MILESTONE_INDEX_TO_OUTPUT_DIFF : String := "milestone_index_to_output_diff"

def CF_ADDRESS_TO_BALANCE : String := "address_to_balance"

def CF_MILESTONE_INDEX_TO_UNCONFIRMED_MESSAGE : String := "milestone_index_to_unconfirmed_message"

def CF_MILESTONE_INDEX_TO_RECEIPT : String := "milestone_index_to_receipt"

def CF_SPENT_TO_TREASURY_OUTPUT : String := "spent_to_treasury_output"

/-- Modelled from the spec: byte length of a message identifier
(`MESSAGE_ID_LENGTH`, imported by storage.rs from a crate not under `src/`);
a message id is a fixed 32-byte identifier. -/
def MESSAGE_ID_LENGTH : Nat := 32

/-- Modelled from the spec: byte length of a padded indexation index
(`INDEXATION_PADDED_INDEX_LENGTH`, imported by storage.rs from a crate not
under `src/`); a padded index is a fixed 64-byte key. -/
def INDEXATION_PADDED_INDEX_LENGTH : Nat := 64

/-- Modelled from the spec: byte length of an Ed25519 address
(`ED25519_ADDRESS_LENGTH`, imported by storage.rs from a crate not under
`src/`); an Ed25519 address is a fixed 32-byte identifier. -/
def ED25519_ADDRESS_LENGTH : Nat := 32

/-- Modelled from the spec: `std::mem::size_of::<MilestoneIndex>()` used by
storage.rs; a milestone index is a 32-bit unsigned integer, 4 bytes. -/
def MILESTONE_INDEX_SIZE : Nat := 4

/-- `std::mem::size_of::<bool>()` in Rust: 1 byte. -/
def BOOL_SIZE : Nat := 1

/-- A declared column family: its unique name, and the optional fixed-length
key-prefix extraction hint (`SliceTransform::create_fixed_prefix(n)` set as
the family's prefix extractor in storage.rs), `none` when no hint is set. -/
structure ColumnFamilyDescriptor where
  name : String
  fixedKeyHintLength : Option Nat
deriving DecidableEq

/-- The column-family table of `Storage::new` (storage.rs lines 51-163), in
source order: the eighteen declared families and, for each, the fixed-length
key-prefix hint it attaches (exactly six families set one). -/
def column_families : List ColumnFamilyDescriptor :=
  [ ⟨CF_SYSTEM, none⟩,
    ⟨CF_MESSAGE_ID_TO_MESSAGE, none⟩,
    ⟨CF_MESSAGE_ID_TO_METADATA, none⟩,
    ⟨CF_MESSAGE_ID_TO_MESSAGE_ID, some MESSAGE_ID_LENGTH⟩,
    ⟨CF_INDEX_TO_MESSAGE_ID, some INDEXATION_PADDED_INDEX_LENGTH⟩,
    ⟨CF_OUTPUT_ID_TO_CREATED_OUTPUT, none⟩,
    ⟨CF_OUTPUT_ID_TO_CONSUMED_OUTPUT, none⟩,
    ⟨CF_OUTPUT_ID_UNSPENT, none⟩,
    ⟨CF_ED25519_ADDRESS_TO_OUTPUT_ID, some ED25519_ADDRESS_LENGTH⟩,
    ⟨CF_LEDGER_INDEX, none⟩,
    ⟨CF_MILESTONE_INDEX_TO_MILESTONE, none⟩,
    ⟨CF_SNAPSHOT_INFO, none⟩,
    ⟨CF_SOLID_ENTRY_POINT_TO_MILESTONE_INDEX, none⟩,
    ⟨CF_MILESTONE_INDEX_TO_OUTPUT_DIFF, none⟩,
    ⟨CF_ADDRESS_TO_BALANCE, none⟩,
    ⟨CF_MILESTONE_INDEX_TO_UNCONFIRMED_MESSAGE, some MILESTONE_INDEX_SIZE⟩,
    ⟨CF_MILESTONE_INDEX_TO_RECEIPT, some MILESTONE_INDEX_SIZE⟩,
    ⟨CF_SPENT_TO_TREASURY_OUTPUT, some BOOL_SIZE⟩ ]

/-- Modelled from the spec: the distinct (key, value) shapes of the persisted
layout (§6; the typed access implementations associating each shape with its
partition are not under `src/`), one constructor per non-system shape. -/
inductive KVShape where
  | messageIdToMessage
  | messageIdToMetadata
  | messageIdToMessageId
  | indexToMessageId
  | outputIdToCreatedOutput
  | outputIdToConsumedOutput
  | outputIdUnspent
  | ed25519AddressToOutputId
  | ledgerIndex
  | milestoneIndexToMilestone
  | snapshotInfo
  | solidEntryPointToMilestoneIndex
  | milestoneIndexToOutputDiff
  | addressToBalance
  | milestoneIndexToUnconfirmedMessage
  | milestoneIndexToReceipt
  | spentToTreasuryOutput
deriving DecidableEq

/-- Modelled from the spec: the partition name each (K,V) shape is mapped to
(§4.3: exactly one named partition per distinct shape). -/
def partitionName : KVShape → String
  | .messageIdToMessage => CF_MESSAGE_ID_TO_MESSAGE
  | .messageIdToMetadata => CF_MESSAGE_ID_TO_METADATA
  | .messageIdToMessageId => CF_MESSAGE_ID_TO_MESSAGE_ID
  | .indexToMessageId => CF_INDEX_TO_MESSAGE_ID
  | .outputIdToCreatedOutput => CF_OUTPUT_ID_TO_CREATED_OUTPUT
  | .outputIdToConsumedOutput => CF_OUTPUT_ID_TO_CONSUMED_OUTPUT
  | .outputIdUnspent => CF_OUTPUT_ID_UNSPENT
  | .ed25519AddressToOutputId => CF_ED25519_ADDRESS_TO_OUTPUT_ID
  | .ledgerIndex => CF_LEDGER_INDEX
  | .milestoneIndexToMilestone => CF_MILESTONE_INDEX_TO_MILESTONE
  | .snapshotInfo => CF_SNAPSHOT_INFO
  | .solidEntryPointToMilestoneIndex => CF_SOLID_ENTRY_POINT_TO_MILESTONE_INDEX
  | .milestoneIndexToOutputDiff => CF_MILESTONE_INDEX_TO_OUTPUT_DIFF
  | .addressToBalance => CF_ADDRESS_TO_BALANCE
  | .milestoneIndexToUnconfirmedMessage => CF_MILESTONE_INDEX_TO_UNCONFIRMED_MESSAGE
  | .milestoneIndexToReceipt => CF_MILESTONE_INDEX_TO_RECEIPT
  | .spentToTreasuryOutput => CF_SPENT_TO_TREASURY_OUTPUT

/-- The shapes in the order their partitions are declared. -/
def allShapes : List KVShape :=
  [ .messageIdToMessage, .messageIdToMetadata, .messageIdToMessageId,
    .indexToMessageId, .outputIdToCreatedOutput, .outputIdToConsumedOutput,
    .outputIdUnspent, .ed25519AddressToOutputId, .ledgerIndex,
    .milestoneIndexToMilestone, .snapshotInfo, .solidEntryPointToMilestoneIndex,
    .milestoneIndexToOutputDiff, .addressToBalance,
    .milestoneIndexToUnconfirmedMessage, .milestoneIndexToReceipt,
    .spentToTreasuryOutput ]

/-- Modelled from the spec: a typed partition and the `Fetch` capability
(§4.1; the per-(K,V) access implementations are not under `src/`): the
partition is the map from keys to stored values, `fetch` returns the stored
value, `Ok(None)` when the key is absent. -/
def fetch {K V : Type} (m : K → Option V) (k : K) : Res (Option V) :=
  .ok (m k)

/-- Modelled from the spec: the `Insert` capability (§4.1): store `v` under
`k`, leaving every other key unchanged. -/
def insert {K V : Type} [DecidableEq K] (m : K → Option V) (k : K) (v : V) :
    K → Option V :=
  fun q => if q = k then some v else m q

/-- Modelled from the spec: the `Truncate` capability (§4.1): clear every
entry of the partition. -/
def truncate {K V : Type} (_ : K → Option V) : K → Option V :=
  fun _ => none

/-- The health phase never changes the Version record. -/
theorem startHealthPhase_versionRecord (s : SystemPartition) (tr : List Event) :
    (startHealthPhase s tr).2.1.versionRecord = s.versionRecord := by
  obtain ⟨vr, hr⟩ := s
  cases hr with
  | none => rfl
  | some sys =>
    cases sys with
    | version v => rfl
    | health h => cases h <;> rfl

/-- C1: for a store whose version check passes (Version record absent or equal
to the current version), `start` proceeds when the Health record is absent or
`Healthy`, and when it is `Idle` it fails with the unhealthy-storage error
carrying the stored value and does not return the adapter. -/
theorem c1_start_health_gate (s : SystemPartition)
    (hv : s.versionRecord = none ∨
      s.versionRecord = some (.version STORAGE_VERSION)) :
    (s.healthRecord = none → (start s).1 = .ok ()) ∧
    (s.healthRecord = some (.health .healthy) → (start s).1 = .ok ()) ∧
    (s.healthRecord = some (.health .idle) →
      (start s).1 = .err (.unhealthyStorage .idle) ∧ (start s).1 ≠ .ok ()) := by
  obtain ⟨vr, hr⟩ := s
  rcases hv with h | h <;> cases h <;>
    exact ⟨fun h1 => by cases h1; decide, fun h2 => by cases h2; decide,
      fun h3 => by cases h3; decide⟩

/-- Witness for C1 at the concrete store with no Version record and a
persisted `Idle` health flag. -/
theorem c1_start_health_gate_witness :
    (start ⟨none, some (.health .idle)⟩).1 =
      .err (.unhealthyStorage .idle) :=
  ((c1_start_health_gate ⟨none, some (.health .idle)⟩ (Or.inl rfl)).2.2 rfl).1

/-- C2: `start`'s version check: an absent Version record is initialized to
the current version and the health phase is entered; a Version record equal to
the current version enters the health phase directly; an unequal Version
record fails with `VersionMismatch(stored, current)` leaving the store
unchanged and performing no write at all. -/
theorem c2_start_version_check (s : SystemPartition) :
    (s.versionRecord = none →
      start s = startHealthPhase
          { s with versionRecord := some (.version STORAGE_VERSION) }
          [.writeRecord .versionKey (.version STORAGE_VERSION)] ∧
      (start s).2.1.versionRecord = some (.version STORAGE_VERSION)) ∧
    (s.versionRecord = some (.version STORAGE_VERSION) →
      start s = startHealthPhase s []) ∧
    (∀ v, s.versionRecord = some (.version v) → v ≠ STORAGE_VERSION →
      start s = (.err (.versionMismatch v STORAGE_VERSION), s, [])) := by
  obtain ⟨vr, hr⟩ := s
  refine ⟨?_, ?_, ?_⟩
  · intro h
    cases h
    exact ⟨rfl, startHealthPhase_versionRecord _ _⟩
  · intro h
    cases h
    rfl
  · intro v h hne
    cases h
    simp [start, hne]

/-- C3 as stated is false: the counterexample evaluates `start` on a store
holding a Health-tagged record under the Version key and `get_health` on a
store holding a Version-tagged record under the Health key; both panic, and
neither returns the corrupt-system-record error kind to its caller. -/
theorem c3_counterexample :
    (start ⟨some (.health .healthy), none⟩).1 = .panic ∧
    (start ⟨some (.health .healthy), none⟩).1 ≠ .err .corruptSystemRecord ∧
    get_health ⟨none, some (.version 0)⟩ = .panic ∧
    get_health ⟨none, some (.version 0)⟩ ≠ .err .corruptSystemRecord := by
  decide

/-- C3 amended: a record of the wrong tag under the Version key makes `start`
panic, and one under the Health key makes `get_health` panic; the value is
never tolerated, but no error kind reaches the caller — the process
terminates. -/
theorem c3_corrupt_tag_panics (s : SystemPartition) :
    (∀ h, s.versionRecord = some (.health h) → start s = (.panic, s, [])) ∧
    (∀ v, s.healthRecord = some (.version v) → get_health s = .panic) := by
  obtain ⟨vr, hr⟩ := s
  constructor
  · intro h hv
    cases hv
    rfl
  · intro v hh
    cases hh
    rfl

/-- C4: for every key and value type with decidable key equality, inserting
then fetching the same key returns the inserted value, and fetching a key
absent from the partition returns `Ok(None)`, not an error. -/
theorem c4_insert_fetch {K V : Type} [DecidableEq K]
    (m : K → Option V) (k : K) (v : V) :
    fetch (insert m k v) k = .ok (some v) ∧
    ∀ q : K, m q = none → fetch m q = .ok none := by
  constructor
  · simp [fetch, insert]
  · intro q hq
    simp [fetch, hq]

/-- Witness for C4 over natural-number keys and values: fetching key 0 after
inserting 5 under it returns 5, and fetching key 1 from the empty partition
returns no value. -/
theorem c4_insert_fetch_witness :
    fetch (insert (fun _ : Nat => (none : Option Nat)) 0 5) 0 = .ok (some 5) ∧
    fetch (fun _ : Nat => (none : Option Nat)) 1 = .ok none :=
  ⟨(c4_insert_fetch (fun _ => none) 0 5).1,
    (c4_insert_fetch (fun _ => none) 0 5).2 1 rfl⟩

/-- After any successful `start` the persisted store holds the current version
under the Version key and `Idle` under the Health key. -/
theorem start_ok_state (s : SystemPartition) (h : (start s).1 = .ok ()) :
    (start s).2.1 =
      ⟨some (.version STORAGE_VERSION), some (.health .idle)⟩ := by
  obtain ⟨vr, hr⟩ := s
  cases vr with
  | none =>
    cases hr with
    | none => rfl
    | some sys =>
      cases sys with
      | version w => exact absurd h (by simp [start, startHealthPhase, get_health])
      | health x =>
        cases x with
        | healthy => rfl
        | idle => exact absurd h (by simp [start, startHealthPhase, get_health])
  | some sys =>
    cases sys with
    | version v =>
      by_cases hv : v = STORAGE_VERSION
      · cases hv
        cases hr with
        | none => rfl
        | some sys2 =>
          cases sys2 with
          | version w =>
            exact absurd h (by simp [start, startHealthPhase, get_health])
          | health x =>
            cases x with
            | healthy => rfl
            | idle =>
              exact absurd h (by simp [start, startHealthPhase, get_health])
      · exact absurd h (by simp [start, hv])
    | health x => exact Res.noConfusion h

/-- C5: every successful `start` leaves the Health record at `Idle`, so
`get_health` on the returned adapter observes `Some(Idle)`; and the full cycle
`start → shutdown → start` succeeds again and again observes `Idle` after the
second start. -/
theorem c5_start_shutdown_cycle (s : SystemPartition)
    (h : (start s).1 = .ok ()) :
    get_health (start s).2.1 = .ok (some .idle) ∧
    (start (shutdown (start s).2.1).2.1).1 = .ok () ∧
    get_health (start (shutdown (start s).2.1).2.1).2.1 =
      .ok (some .idle) := by
  rw [start_ok_state s h]
  decide

/-- Witness for C5 at the fresh store (both system records absent). -/
theorem c5_start_shutdown_cycle_witness :
    get_health (start ⟨none, none⟩).2.1 = .ok (some .idle) ∧
    (start (shutdown (start ⟨none, none⟩).2.1).2.1).1 = .ok () ∧
    get_health (start (shutdown (start ⟨none, none⟩).2.1).2.1).2.1 =
      .ok (some .idle) :=
  c5_start_shutdown_cycle ⟨none, none⟩ (by decide)

/-- `start` never writes the value `Healthy` to the Health record. -/
theorem start_no_healthy_write (s : SystemPartition) :
    Event.writeRecord .healthKey (.health .healthy) ∉ (start s).2.2 := by
  obtain ⟨vr, hr⟩ := s
  cases vr with
  | none =>
    cases hr with
    | none => decide
    | some sys =>
      cases sys with
      | version w => simp [start, startHealthPhase, get_health]
      | health x => cases x <;> decide
  | some sys =>
    cases sys with
    | version v =>
      by_cases hv : v = STORAGE_VERSION
      · cases hv
        cases hr with
        | none => decide
        | some sys2 =>
          cases sys2 with
          | version w => simp [start, startHealthPhase, get_health]
          | health x => cases x <;> decide
      · simp [start, hv]
    | health x => simp [start]

/-- C6 as stated is false: `set_health(Healthy)`, an adapter operation exposed
to the hosting node, writes `Healthy` to the Health record although it is not
`shutdown`. -/
theorem c6_counterexample :
    writesHealthy (.opSetHealth .healthy) ⟨none, none⟩ ∧
    Op.opSetHealth .healthy ≠ Op.opShutdown := by
  decide

/-- C6 amended: `shutdown` writes `Health = Healthy` and then flushes durably,
and the only adapter operation besides `shutdown` that ever writes `Healthy`
is an explicit `set_health(Healthy)` call by the caller; `start`, `get_health`
and `set_health` with any other argument never write `Healthy`. -/
theorem c6_healthy_written_by :
    (∀ s : SystemPartition, (shutdown s).2.2 =
      [.writeRecord .healthKey (.health .healthy), .flushAll]) ∧
    (∀ (op : Op) (s : SystemPartition), writesHealthy op s →
      op = .opShutdown ∨ op = .opSetHealth .healthy) := by
  constructor
  · intro s
    rfl
  · intro op s hw
    cases op with
    | opStart => exact absurd hw (start_no_healthy_write s)
    | opShutdown => exact Or.inl rfl
    | opSetHealth h =>
      cases h with
      | healthy => exact Or.inr rfl
      | idle => exact absurd hw (by simp [writesHealthy, runOp, set_health])
    | opGetHealth => exact absurd hw (by simp [writesHealthy, runOp])

/-- Release-mode wrapping accumulation coincides with the exact sum while the
sum stays below the `usize` modulus. -/
theorem foldl_wrap_eq_sum (files : List Nat) (a : Nat)
    (h : a + files.sum < USIZE_MOD) :
    files.foldl (fun x y => (x + y) % USIZE_MOD) a = a + files.sum := by
  induction files generalizing a with
  | nil => simp
  | cons f fs ih =>
    have hf : a + f + fs.sum < USIZE_MOD := by
      simp only [List.sum_cons] at h
      omega
    have hm : (a + f) % USIZE_MOD = a + f :=
      Nat.mod_eq_of_lt (lt_of_le_of_lt (Nat.le_add_right _ _) hf)
    simp only [List.foldl_cons, hm, ih (a + f) hf, List.sum_cons]
    omega

/-- C7: when the engine reports its live data files, `size` returns `Ok` of
the sum of their on-disk sizes (sizes are naturals, so the result is never
negative, and the definition has no panic branch); an engine failure to list
the files propagates as `Err`. -/
theorem c7_size_sums_live_files (files : List Nat)
    (h : files.sum < USIZE_MOD) :
    size (.ok files) = .ok (some files.sum) ∧
    ∀ e, size (.err e) = .err e := by
  refine ⟨?_, fun e => rfl⟩
  simp only [size]
  rw [foldl_wrap_eq_sum files 0 (by simpa using h)]
  simp

/-- Witness for C7 at the concrete live-file list `[3, 4]`. -/
theorem c7_size_sums_live_files_witness :
    size (.ok [3, 4]) = .ok (some ([3, 4] : List Nat).sum) ∧
    ∀ e, size (.err e) = .err e :=
  c7_size_sums_live_files [3, 4] (by decide)

/-- C8: the construction routine's table declares the reserved system
partition and exactly one named partition per distinct (K,V) shape of the
persisted layout, all names distinct, and attaches a fixed-length key-hint of
the key's exact byte length to precisely the six partitions accessed by
fixed-length key prefix, every other partition omitting the hint. -/
theorem c8_partition_table :
    column_families.map ColumnFamilyDescriptor.name =
      CF_SYSTEM :: allShapes.map partitionName ∧
    (column_families.map ColumnFamilyDescriptor.name).Nodup ∧
    (∀ sh : KVShape, sh ∈ allShapes) ∧
    column_families.filter (fun d => d.fixedKeyHintLength.isSome) =
      [ ⟨CF_MESSAGE_ID_TO_MESSAGE_ID, some MESSAGE_ID_LENGTH⟩,
        ⟨CF_INDEX_TO_MESSAGE_ID, some INDEXATION_PADDED_INDEX_LENGTH⟩,
        ⟨CF_ED25519_ADDRESS_TO_OUTPUT_ID, some ED25519_ADDRESS_LENGTH⟩,
        ⟨CF_MILESTONE_INDEX_TO_UNCONFIRMED_MESSAGE, some MILESTONE_INDEX_SIZE⟩,
        ⟨CF_MILESTONE_INDEX_TO_RECEIPT, some MILESTONE_INDEX_SIZE⟩,
        ⟨CF_SPENT_TO_TREASURY_OUTPUT, some BOOL_SIZE⟩ ] := by
  refine ⟨rfl, by decide, fun sh => by cases sh <;> decide, by decide⟩

/-- C9: `start` runs the version check strictly before the health check: on a
store whose Version record is unequal to the current version and whose Health
record is `Idle`, it fails with the version-mismatch error, not the
unhealthy-storage error, and writes neither record. -/
theorem c9_version_check_first (s : SystemPartition) (v : Nat)
    (hv : s.versionRecord = some (.version v)) (hne : v ≠ STORAGE_VERSION)
    (hh : s.healthRecord = some (.health .idle)) :
    start s = (.err (.versionMismatch v STORAGE_VERSION), s, []) ∧
    ∀ h, (start s).1 ≠ .err (.unhealthyStorage h) := by
  obtain ⟨vr, hr⟩ := s
  cases hv
  cases hh
  have h1 : start ⟨some (.version v), some (.health .idle)⟩ =
      (.err (.versionMismatch v STORAGE_VERSION),
        ⟨some (.version v), some (.health .idle)⟩, []) := by
    simp [start, hne]
  refine ⟨h1, ?_⟩
  intro h hc
  rw [h1] at hc
  simp at hc

/-- Witness for C9 at the concrete store with stored version 0 and health
`Idle`. -/
theorem c9_version_check_first_witness :
    start ⟨some (.version 0), some (.health .idle)⟩ =
      (.err (.versionMismatch 0 STORAGE_VERSION),
        ⟨some (.version 0), some (.health .idle)⟩, []) :=
  (c9_version_check_first ⟨some (.version 0), some (.health .idle)⟩ 0
    rfl (by decide) rfl).1

/-- C10: `size` never returns `Ok(None)`: on a reported file list it returns
`Ok(Some _)`, and a failure to list live files surfaces as `Err`. -/
theorem c10_size_never_none :
    (∀ files : List Nat, size (.ok files) ≠ .ok none) ∧
    ∀ e : Error, size (.err e) = .err e := by
  constructor
  · intro files hc
    simp [size] at hc
  · intro e
    rfl

end Bee
